import Mathlib

/-!
# Child-resource names of the Cincinnati operator

A shallow embedding of `pkg/controller/cincinnati/names.go` and the properties of
the names it derives.

Modelling choices.

* A Go `string` is an immutable sequence of bytes, so it is a `List UInt8` here;
  `+` on strings is `++` and `len` is `List.length`. A string literal of the
  source stands for its UTF-8 encoding (`goLit`).
* The argument `instance *cv1alpha1.Cincinnati` is a pointer: `none` is `nil`,
  `some c` points to the value `c`.
* Reading a field through a `nil` pointer is a run-time panic, so every function
  that reads `instance.Name` returns `Except Panic GoString`.
-/

namespace Names

/-- A Go string: a sequence of bytes. -/
abbrev GoString := List UInt8

/-- The bytes of a Go string literal: the UTF-8 encoding of its characters. -/
def goLit (s : String) : GoString := s.data.flatMap String.utf8EncodeChar

/-- Run-time panics of the embedded code. -/
inductive Panic where
  | nilPointerDereference
  deriving DecidableEq, Repr

deriving instance DecidableEq for Except

/-- Modelled from the spec: the declaration of the custom resource type
`cv1alpha1.Cincinnati` is imported by names.go and is not part of it. The spec's
ParentInstance has the attribute `Name`; the rest of the resource (namespace,
labels, spec, status) is never read by names.go, and the two structured parts are
kept abstract as the type parameters `σ` (spec) and `τ` (status). -/
structure Cincinnati (σ τ : Type) where
  Name : GoString
  Namespace : GoString
  Labels : List (GoString × GoString)
  Spec : σ
  Status : τ

/-- Dereference of a Go pointer: `nil` panics. -/
def deref {α : Type} (p : Option α) : Except Panic α :=
  match p with
  | none => .error .nilPointerDereference
  | some v => .ok v

/-- NameContainerGraphBuilder is the Name property of the graph builder container -/
def NameContainerGraphBuilder : GoString := goLit "graph-builder"

/-- NameContainerPolicyEngine is the Name property of the policy engine container -/
def NameContainerPolicyEngine : GoString := goLit "policy-engine"

/-- NameInitContainerGraphData is the Name property of the graph data container -/
def NameInitContainerGraphData : GoString := goLit "graph-data"

/-- The constant openshiftConfigNamespace is the name of openshift's configuration namespace -/
def openshiftConfigNamespace : GoString := goLit "openshift-config"

section Derivations

variable {σ τ : Type}

/-- Go: `return instance.Name` -/
def nameDeployment (inst : Option (Cincinnati σ τ)) : Except Panic GoString := do
  let c ← deref inst
  return c.Name

/-- Go: `return instance.Name` -/
def namePodDisruptionBudget (inst : Option (Cincinnati σ τ)) : Except Panic GoString := do
  let c ← deref inst
  return c.Name

/-- Go: `return instance.Name + "-env"` -/
def nameEnvConfig (inst : Option (Cincinnati σ τ)) : Except Panic GoString := do
  let c ← deref inst
  return c.Name ++ goLit "-env"

/-- Go: `return instance.Name + "-config"` -/
def nameConfig (inst : Option (Cincinnati σ τ)) : Except Panic GoString := do
  let c ← deref inst
  return c.Name ++ goLit "-config"

/-- Go: `return instance.Name + "-policy-engine"` -/
def namePolicyEngineService (inst : Option (Cincinnati σ τ)) : Except Panic GoString := do
  let c ← deref inst
  return c.Name ++ goLit "-policy-engine"

/-- Go: `return instance.Name + "-graph-builder"` -/
def nameGraphBuilderService (inst : Option (Cincinnati σ τ)) : Except Panic GoString := do
  let c ← deref inst
  return c.Name ++ goLit "-graph-builder"

/-- Go: `return instance.Name + "-trusted-ca"` -/
def nameAdditionalTrustedCA (inst : Option (Cincinnati σ τ)) : Except Panic GoString := do
  let c ← deref inst
  return c.Name ++ goLit "-trusted-ca"

end Derivations

/-- Go: `return "trusted-ca"`. The function takes no argument and reads nothing. -/
def nameDeploymentTrustedCA : GoString := goLit "trusted-ca"

/-- The instance of the spec's scenarios: `Name = "example"`, every other field zero. -/
def exampleInstance : Cincinnati Unit Unit :=
  { Name := goLit "example", Namespace := [], Labels := [], Spec := (), Status := () }

/-- The zero value `Cincinnati{}`: every field is the zero value of its type. -/
def zeroInstance : Cincinnati Unit Unit :=
  { Name := [], Namespace := [], Labels := [], Spec := (), Status := () }

/-- An instance whose own name is the string of the parent-independent role. -/
def trustedCAInstance : Cincinnati Unit Unit :=
  { Name := goLit "trusted-ca", Namespace := [], Labels := [], Spec := (), Status := () }

/-- Two instances named "example" that differ in every other field. -/
def exampleInProd : Cincinnati Nat Bool :=
  { Name := goLit "example", Namespace := goLit "prod",
    Labels := [(goLit "app", goLit "cincinnati")], Spec := 3, Status := true }

/-- The second instance named "example". -/
def exampleInTest : Cincinnati Nat Bool :=
  { Name := goLit "example", Namespace := goLit "test", Labels := [], Spec := 0, Status := false }

/-- An instance with another name, "other". -/
def otherInstance : Cincinnati Unit Unit :=
  { Name := goLit "other", Namespace := [], Labels := [], Spec := (), Status := () }

/-- A lowercase ASCII letter or a digit. -/
def isLowerAlnum (b : UInt8) : Bool :=
  (97 ≤ b && b ≤ 122) || (48 ≤ b && b ≤ 57)

/-- Modelled from the spec: the admission rule of the platform for object names
("naming-length and character-set rules") is enforced outside names.go. A name is
accepted when it is non-empty, at most 253 bytes long, made of lowercase ASCII
letters, digits, `-` and `.`, and starts and ends with a letter or digit. -/
def isValidObjectName (n : GoString) : Bool :=
  decide (n.length ≤ 253)
    && n.all (fun b => isLowerAlnum b || b == 45 || b == 46)
    && (n.head?.map isLowerAlnum).getD false
    && (n.getLast?.map isLowerAlnum).getD false

/-- The result `r` of a derivation keeps the name `n` whole under the suffix `s`:
the derivation returns a string `d` that starts with `n`, ends with `s`, and gives
back exactly `n` once its last `len s` bytes are removed. -/
def KeepsName (n s : GoString) (r : Except Panic GoString) : Prop :=
  ∃ d, r = .ok d ∧ n <+: d ∧ s <:+ d ∧ d.take (d.length - s.length) = n

/-- A byte allowed inside a DNS-1123 label: a lowercase ASCII letter, a digit or `-`. -/
def isLabelChar (b : UInt8) : Bool :=
  isLowerAlnum b || b == 45

/-- The DNS-1123 label character rule: only lowercase ASCII letters, digits and
`-`, with a letter or digit first and last (so the string is not empty). -/
def isLabelName (n : GoString) : Bool :=
  n.all isLabelChar
    && (n.head?.map isLowerAlnum).getD false
    && (n.getLast?.map isLowerAlnum).getD false

/-- An instance whose name is 49 bytes long: forty-nine times the letter `a`. -/
def longInstance : Cincinnati Unit Unit :=
  { Name := List.replicate 49 97, Namespace := [], Labels := [], Spec := (), Status := () }

/-! ## Unfolding the derivations on a non-nil pointer -/

section Unfold

variable {σ τ : Type} (c : Cincinnati σ τ)

theorem nameDeployment_some : nameDeployment (some c) = .ok c.Name := rfl

theorem namePodDisruptionBudget_some : namePodDisruptionBudget (some c) = .ok c.Name := rfl

theorem nameEnvConfig_some : nameEnvConfig (some c) = .ok (c.Name ++ goLit "-env") := rfl

theorem nameConfig_some : nameConfig (some c) = .ok (c.Name ++ goLit "-config") := rfl

theorem namePolicyEngineService_some :
    namePolicyEngineService (some c) = .ok (c.Name ++ goLit "-policy-engine") := rfl

theorem nameGraphBuilderService_some :
    nameGraphBuilderService (some c) = .ok (c.Name ++ goLit "-graph-builder") := rfl

theorem nameAdditionalTrustedCA_some :
    nameAdditionalTrustedCA (some c) = .ok (c.Name ++ goLit "-trusted-ca") := rfl

end Unfold

/-! ## Byte-string facts used below -/

theorem goLit_env : goLit "-env" = [45, 101, 110, 118] := by decide

theorem goLit_config : goLit "-config" = [45, 99, 111, 110, 102, 105, 103] := by decide

theorem goLit_policy_engine :
    goLit "-policy-engine"
      = [45, 112, 111, 108, 105, 99, 121, 45, 101, 110, 103, 105, 110, 101] := by decide

theorem goLit_graph_builder :
    goLit "-graph-builder"
      = [45, 103, 114, 97, 112, 104, 45, 98, 117, 105, 108, 100, 101, 114] := by decide

theorem goLit_trusted_ca_suffix :
    goLit "-trusted-ca" = [45, 116, 114, 117, 115, 116, 101, 100, 45, 99, 97] := by decide

theorem goLit_trusted_ca :
    goLit "trusted-ca" = [116, 114, 117, 115, 116, 101, 100, 45, 99, 97] := by decide

theorem keepsName_append (n s : GoString) : KeepsName n s (.ok (n ++ s)) :=
  ⟨n ++ s, rfl, ⟨s, rfl⟩, ⟨n, rfl⟩, by simp⟩

theorem ok_append_inj (n₁ n₂ s : GoString)
    (h : (Except.ok (n₁ ++ s) : Except Panic GoString) = .ok (n₂ ++ s)) : n₁ = n₂ := by
  simpa using Except.ok.inj h

theorem append_ne_of_getLast (n s t : GoString) (hs : s ≠ [])
    (h : s.getLast? ≠ t.getLast?) : n ++ s ≠ t := by
  intro e
  apply h
  rw [← e, List.getLast?_append_of_ne_nil _ hs]

theorem append_ne_append_of_getLast (n₁ n₂ s t : GoString) (hs : s ≠ []) (ht : t ≠ [])
    (h : s.getLast? ≠ t.getLast?) : n₁ ++ s ≠ n₂ ++ t := by
  apply append_ne_of_getLast n₁ s (n₂ ++ t) hs
  rw [List.getLast?_append_of_ne_nil _ ht]
  exact h

theorem ok_append_ne_of_getLast (n₁ n₂ s t : GoString) (hs : s ≠ []) (ht : t ≠ [])
    (h : s.getLast? ≠ t.getLast?) :
    (Except.ok (n₁ ++ s) : Except Panic GoString) ≠ .ok (n₂ ++ t) :=
  fun e => append_ne_append_of_getLast n₁ n₂ s t hs ht h (Except.ok.inj e)

theorem ok_append_ne_trusted_ca (n s : GoString) (hs : s ≠ [])
    (h : s.getLast? ≠ (goLit "trusted-ca").getLast?) :
    (Except.ok (n ++ s) : Except Panic GoString) ≠ .ok nameDeploymentTrustedCA :=
  fun e => append_ne_of_getLast n s _ hs h (Except.ok.inj e)

theorem isLabelName_append (n s : GoString) (hn : isLabelName n = true)
    (hs : s.all isLabelChar = true)
    (hl : (s.getLast?.map isLowerAlnum).getD false = true) :
    isLabelName (n ++ s) = true := by
  have hne : n ≠ [] := by
    rintro rfl
    simp [isLabelName] at hn
  have hse : s ≠ [] := by
    rintro rfl
    simp at hl
  simp only [isLabelName, Bool.and_eq_true] at hn ⊢
  rw [List.all_append, List.head?_append_of_ne_nil _ hne, List.getLast?_append_of_ne_nil _ hse]
  exact ⟨⟨by rw [hn.1.1, hs]; rfl, hn.1.2⟩, hl⟩

theorem ok_isLabelName_append (n s : GoString) (hn : isLabelName n = true)
    (hs : s.all isLabelChar = true)
    (hl : (s.getLast?.map isLowerAlnum).getD false = true) :
    ∃ d, (Except.ok (n ++ s) : Except Panic GoString) = .ok d ∧ isLabelName d = true :=
  ⟨n ++ s, rfl, isLabelName_append n s hn hs hl⟩

theorem ok_length_append (n s : GoString) (k : Nat) (hk : s.length = k) :
    Except.map List.length (Except.ok (n ++ s) : Except Panic GoString)
      = .ok (n.length + k) := by
  simp [Except.map, hk]

/-- C1: on every instance the five suffixed derivations return `instance.Name`
followed by the role's fixed suffix and nothing else; on `Name = "example"` they
return "example-env", "example-config", "example-policy-engine",
"example-graph-builder" and "example-trusted-ca". -/
theorem suffixed_names_eq {σ τ : Type} (c : Cincinnati σ τ) :
    (nameEnvConfig (some c) = .ok (c.Name ++ goLit "-env")
      ∧ nameConfig (some c) = .ok (c.Name ++ goLit "-config")
      ∧ namePolicyEngineService (some c) = .ok (c.Name ++ goLit "-policy-engine")
      ∧ nameGraphBuilderService (some c) = .ok (c.Name ++ goLit "-graph-builder")
      ∧ nameAdditionalTrustedCA (some c) = .ok (c.Name ++ goLit "-trusted-ca"))
    ∧ (nameEnvConfig (some exampleInstance) = .ok (goLit "example-env")
      ∧ nameConfig (some exampleInstance) = .ok (goLit "example-config")
      ∧ namePolicyEngineService (some exampleInstance) = .ok (goLit "example-policy-engine")
      ∧ nameGraphBuilderService (some exampleInstance) = .ok (goLit "example-graph-builder")
      ∧ nameAdditionalTrustedCA (some exampleInstance) = .ok (goLit "example-trusted-ca")) := by
  refine ⟨⟨rfl, rfl, rfl, rfl, rfl⟩, ?_⟩
  decide

/-- C2: on every instance `nameDeployment` and `namePodDisruptionBudget` both
return exactly `instance.Name`, so the two names are equal; on `Name = "example"`
both return "example". -/
theorem deployment_and_pdb_name_eq {σ τ : Type} (c : Cincinnati σ τ) :
    nameDeployment (some c) = .ok c.Name
    ∧ namePodDisruptionBudget (some c) = .ok c.Name
    ∧ namePodDisruptionBudget (some c) = nameDeployment (some c)
    ∧ nameDeployment (some exampleInstance) = .ok (goLit "example")
    ∧ namePodDisruptionBudget (some exampleInstance) = .ok (goLit "example") := by
  refine ⟨rfl, rfl, rfl, ?_, ?_⟩ <;> decide

/-- C3: `nameDeploymentTrustedCA` is the constant string "trusted-ca" (the ten
bytes `t r u s t e d - c a`). The function has no parameter at all, so its result
cannot depend on an instance or on `instance.Name`: it is one value for every
instance a caller may hold. -/
theorem nameDeploymentTrustedCA_const :
    nameDeploymentTrustedCA = goLit "trusted-ca"
    ∧ nameDeploymentTrustedCA = [116, 114, 117, 115, 116, 101, 100, 45, 99, 97] := by
  decide

/-- C4 (as stated, refuted): "example" and "trusted-ca" are non-empty valid object
names, yet the eight names derived from the instance named "example" are not
pairwise distinct (the pod-disruption-budget name is the deployment name), and
for the instance named "trusted-ca" even the seven names other than the
pod-disruption-budget name are not (the deployment name is the constant). -/
theorem eight_names_not_pairwise_distinct :
    (exampleInstance.Name ≠ [] ∧ isValidObjectName exampleInstance.Name = true
      ∧ ¬ List.Pairwise (· ≠ ·)
          [nameDeployment (some exampleInstance), namePodDisruptionBudget (some exampleInstance),
           nameEnvConfig (some exampleInstance), nameConfig (some exampleInstance),
           namePolicyEngineService (some exampleInstance),
           nameGraphBuilderService (some exampleInstance),
           nameAdditionalTrustedCA (some exampleInstance), .ok nameDeploymentTrustedCA])
    ∧ (trustedCAInstance.Name ≠ [] ∧ isValidObjectName trustedCAInstance.Name = true
      ∧ ¬ List.Pairwise (· ≠ ·)
          [nameDeployment (some trustedCAInstance),
           nameEnvConfig (some trustedCAInstance), nameConfig (some trustedCAInstance),
           namePolicyEngineService (some trustedCAInstance),
           nameGraphBuilderService (some trustedCAInstance),
           nameAdditionalTrustedCA (some trustedCAInstance), .ok nameDeploymentTrustedCA]) := by
  decide

/-- C4 (amended): for every instance whose Name is a non-empty valid object name,
the pod-disruption-budget name equals the deployment name; the six names
nameDeployment, nameEnvConfig, nameConfig, namePolicyEngineService,
nameGraphBuilderService, nameAdditionalTrustedCA are pairwise distinct; none of
the five suffixed names is the constant nameDeploymentTrustedCA; and the
deployment name differs from that constant whenever Name is not "trusted-ca". -/
theorem valid_name_roles_distinct {σ τ : Type} (c : Cincinnati σ τ)
    (_hne : c.Name ≠ []) (_hv : isValidObjectName c.Name = true) :
    namePodDisruptionBudget (some c) = nameDeployment (some c)
    ∧ List.Pairwise (· ≠ ·)
        [nameDeployment (some c), nameEnvConfig (some c), nameConfig (some c),
         namePolicyEngineService (some c), nameGraphBuilderService (some c),
         nameAdditionalTrustedCA (some c)]
    ∧ (∀ d ∈ [nameEnvConfig (some c), nameConfig (some c), namePolicyEngineService (some c),
              nameGraphBuilderService (some c), nameAdditionalTrustedCA (some c)],
          d ≠ .ok nameDeploymentTrustedCA)
    ∧ (c.Name ≠ goLit "trusted-ca" → nameDeployment (some c) ≠ .ok nameDeploymentTrustedCA) := by
  refine ⟨rfl, ?_, ?_, ?_⟩
  · simp [nameDeployment_some, nameEnvConfig_some, nameConfig_some,
      namePolicyEngineService_some, nameGraphBuilderService_some, nameAdditionalTrustedCA_some,
      goLit_env, goLit_config, goLit_policy_engine, goLit_graph_builder,
      goLit_trusted_ca_suffix]
  · intro d hd
    simp only [List.mem_cons, List.mem_singleton, List.not_mem_nil, or_false] at hd
    have key : ∀ s : GoString, s ≠ [] → s.getLast? ≠ (goLit "trusted-ca").getLast? →
        (Except.ok (c.Name ++ s) : Except Panic GoString) ≠ .ok nameDeploymentTrustedCA := by
      intro s hs hl e
      exact append_ne_of_getLast c.Name s _ hs hl (Except.ok.inj e)
    rcases hd with h | h | h | h | h <;> subst h
    · exact key _ (by decide) (by decide)
    · exact key _ (by decide) (by decide)
    · exact key _ (by decide) (by decide)
    · exact key _ (by decide) (by decide)
    · intro e
      have := congrArg List.length (Except.ok.inj e)
      simp [nameDeploymentTrustedCA, goLit_trusted_ca, goLit_trusted_ca_suffix] at this
  · intro h e
    exact h (Except.ok.inj e)

/-- C4 (amended), at the instance named "example". -/
theorem valid_name_roles_distinct_witness :
    exampleInstance.Name ≠ [] ∧ isValidObjectName exampleInstance.Name = true
    ∧ List.Pairwise (· ≠ ·)
        [nameDeployment (some exampleInstance), nameEnvConfig (some exampleInstance),
         nameConfig (some exampleInstance), namePolicyEngineService (some exampleInstance),
         nameGraphBuilderService (some exampleInstance),
         nameAdditionalTrustedCA (some exampleInstance)] :=
  ⟨by decide, by decide,
    (valid_name_roles_distinct exampleInstance (by decide) (by decide)).2.1⟩

/-- C5: each of the seven parent-scoped derivations depends only on
`instance.Name`: two instances with equal Name, whatever their namespace, labels,
spec and status, get the same result from each derivation. The derivations are
functions of their argument alone, so deriving twice from one instance gives the
same string. -/
theorem names_depend_only_on_Name {σ τ : Type} (c₁ c₂ : Cincinnati σ τ)
    (h : c₁.Name = c₂.Name) :
    nameDeployment (some c₁) = nameDeployment (some c₂)
    ∧ namePodDisruptionBudget (some c₁) = namePodDisruptionBudget (some c₂)
    ∧ nameEnvConfig (some c₁) = nameEnvConfig (some c₂)
    ∧ nameConfig (some c₁) = nameConfig (some c₂)
    ∧ namePolicyEngineService (some c₁) = namePolicyEngineService (some c₂)
    ∧ nameGraphBuilderService (some c₁) = nameGraphBuilderService (some c₂)
    ∧ nameAdditionalTrustedCA (some c₁) = nameAdditionalTrustedCA (some c₂) := by
  simp only [nameDeployment_some, namePodDisruptionBudget_some, nameEnvConfig_some,
    nameConfig_some, namePolicyEngineService_some, nameGraphBuilderService_some,
    nameAdditionalTrustedCA_some, h, and_self]

/-- C5, at two instances named "example" in different namespaces, with different
labels, spec and status. -/
theorem names_depend_only_on_Name_witness :
    exampleInProd.Name = exampleInTest.Name
    ∧ exampleInProd.Namespace ≠ exampleInTest.Namespace
    ∧ exampleInProd.Labels ≠ exampleInTest.Labels
    ∧ exampleInProd.Spec ≠ exampleInTest.Spec
    ∧ exampleInProd.Status ≠ exampleInTest.Status
    ∧ nameEnvConfig (some exampleInProd) = nameEnvConfig (some exampleInTest)
    ∧ nameEnvConfig (some exampleInProd) = .ok (goLit "example-env") :=
  ⟨by decide, by decide, by decide, by decide, by decide,
    (names_depend_only_on_Name exampleInProd exampleInTest (by decide)).2.2.1, by decide⟩

/-- C6: on an instance whose Name is the empty string, as in the zero value, the
derivations succeed and return the degenerate names "", "", "-env", "-config",
"-policy-engine", "-graph-builder" and "-trusted-ca": the empty name is neither
rejected nor replaced. -/
theorem empty_name_degenerate {σ τ : Type} (c : Cincinnati σ τ) (h : c.Name = []) :
    nameDeployment (some c) = .ok []
    ∧ namePodDisruptionBudget (some c) = .ok []
    ∧ nameEnvConfig (some c) = .ok (goLit "-env")
    ∧ nameConfig (some c) = .ok (goLit "-config")
    ∧ namePolicyEngineService (some c) = .ok (goLit "-policy-engine")
    ∧ nameGraphBuilderService (some c) = .ok (goLit "-graph-builder")
    ∧ nameAdditionalTrustedCA (some c) = .ok (goLit "-trusted-ca") := by
  simp only [nameDeployment_some, namePodDisruptionBudget_some, nameEnvConfig_some,
    nameConfig_some, namePolicyEngineService_some, nameGraphBuilderService_some,
    nameAdditionalTrustedCA_some, h, List.nil_append, and_self]

/-- C6, at the zero value `Cincinnati{}`. -/
theorem empty_name_degenerate_witness :
    zeroInstance.Name = []
    ∧ nameDeployment (some zeroInstance) = .ok []
    ∧ nameEnvConfig (some zeroInstance) = .ok [45, 101, 110, 118]
    ∧ nameConfig (some zeroInstance) = .ok (goLit "-config") :=
  have h := empty_name_degenerate zeroInstance rfl
  ⟨rfl, h.1, by decide, h.2.2.2.1⟩

/-- C7: the well-known constants are "graph-builder", "policy-engine",
"graph-data" and "openshift-config", and the three container names are pairwise
distinct. -/
theorem name_constants :
    NameContainerGraphBuilder = goLit "graph-builder"
    ∧ NameContainerGraphBuilder
        = [103, 114, 97, 112, 104, 45, 98, 117, 105, 108, 100, 101, 114]
    ∧ NameContainerPolicyEngine = goLit "policy-engine"
    ∧ NameContainerPolicyEngine
        = [112, 111, 108, 105, 99, 121, 45, 101, 110, 103, 105, 110, 101]
    ∧ NameInitContainerGraphData = goLit "graph-data"
    ∧ NameInitContainerGraphData = [103, 114, 97, 112, 104, 45, 100, 97, 116, 97]
    ∧ openshiftConfigNamespace = goLit "openshift-config"
    ∧ openshiftConfigNamespace
        = [111, 112, 101, 110, 115, 104, 105, 102, 116, 45, 99, 111, 110, 102, 105, 103]
    ∧ List.Pairwise (· ≠ ·)
        [NameContainerGraphBuilder, NameContainerPolicyEngine, NameInitContainerGraphData] := by
  decide

/-- C8: `instance.Name` is neither normalised nor truncated. For every Name and
each of the seven parent-scoped roles the derived name starts with Name, ends with
the role's fixed suffix (empty for the deployment and the pod-disruption budget),
and gives back Name exactly when the suffix is removed from its end; hence each
derivation is injective in Name. -/
theorem name_kept_whole {σ τ : Type} (c₁ c₂ : Cincinnati σ τ) :
    (KeepsName c₁.Name [] (nameDeployment (some c₁))
      ∧ KeepsName c₁.Name [] (namePodDisruptionBudget (some c₁))
      ∧ KeepsName c₁.Name (goLit "-env") (nameEnvConfig (some c₁))
      ∧ KeepsName c₁.Name (goLit "-config") (nameConfig (some c₁))
      ∧ KeepsName c₁.Name (goLit "-policy-engine") (namePolicyEngineService (some c₁))
      ∧ KeepsName c₁.Name (goLit "-graph-builder") (nameGraphBuilderService (some c₁))
      ∧ KeepsName c₁.Name (goLit "-trusted-ca") (nameAdditionalTrustedCA (some c₁)))
    ∧ ((nameDeployment (some c₁) = nameDeployment (some c₂) → c₁.Name = c₂.Name)
      ∧ (namePodDisruptionBudget (some c₁) = namePodDisruptionBudget (some c₂)
          → c₁.Name = c₂.Name)
      ∧ (nameEnvConfig (some c₁) = nameEnvConfig (some c₂) → c₁.Name = c₂.Name)
      ∧ (nameConfig (some c₁) = nameConfig (some c₂) → c₁.Name = c₂.Name)
      ∧ (namePolicyEngineService (some c₁) = namePolicyEngineService (some c₂)
          → c₁.Name = c₂.Name)
      ∧ (nameGraphBuilderService (some c₁) = nameGraphBuilderService (some c₂)
          → c₁.Name = c₂.Name)
      ∧ (nameAdditionalTrustedCA (some c₁) = nameAdditionalTrustedCA (some c₂)
          → c₁.Name = c₂.Name)) := by
  refine ⟨⟨?_, ?_, keepsName_append _ _, keepsName_append _ _, keepsName_append _ _,
    keepsName_append _ _, keepsName_append _ _⟩,
    fun e => Except.ok.inj e, fun e => Except.ok.inj e, ok_append_inj _ _ _, ok_append_inj _ _ _,
    ok_append_inj _ _ _, ok_append_inj _ _ _, ok_append_inj _ _ _⟩
  · simpa using keepsName_append c₁.Name []
  · simpa using keepsName_append c₁.Name []

/-- C8, at the instances named "other" and "example": the names differ, and so do
the env-config names; the env-config name of "example" minus its last four bytes
is "example". -/
theorem name_kept_whole_witness :
    otherInstance.Name ≠ exampleInstance.Name
    ∧ nameEnvConfig (some otherInstance) ≠ nameEnvConfig (some exampleInstance)
    ∧ KeepsName (goLit "example") (goLit "-env") (.ok (goLit "example-env")) :=
  have h := name_kept_whole otherInstance exampleInstance
  have g := (name_kept_whole exampleInstance exampleInstance).1.2.2.1
  ⟨by decide, fun e => absurd (h.2.2.2.1 e) (by decide), g⟩

/-- C9 (as stated, refuted): a nil instance pointer is an argument a caller can
pass (it is the zero value of the parameter type), and on it each of the seven
parent-scoped derivations panics with a nil dereference instead of returning a
string. -/
theorem nil_instance_panics :
    (¬ ∃ s, nameDeployment (none : Option (Cincinnati Unit Unit)) = .ok s)
    ∧ nameDeployment (none : Option (Cincinnati Unit Unit)) = .error .nilPointerDereference
    ∧ namePodDisruptionBudget (none : Option (Cincinnati Unit Unit))
        = .error .nilPointerDereference
    ∧ nameEnvConfig (none : Option (Cincinnati Unit Unit)) = .error .nilPointerDereference
    ∧ nameConfig (none : Option (Cincinnati Unit Unit)) = .error .nilPointerDereference
    ∧ namePolicyEngineService (none : Option (Cincinnati Unit Unit))
        = .error .nilPointerDereference
    ∧ nameGraphBuilderService (none : Option (Cincinnati Unit Unit))
        = .error .nilPointerDereference
    ∧ nameAdditionalTrustedCA (none : Option (Cincinnati Unit Unit))
        = .error .nilPointerDereference := by
  refine ⟨?_, rfl, rfl, rfl, rfl, rfl, rfl, rfl⟩
  rintro ⟨s, hs⟩
  cases hs

/-- C9 (amended): for every non-nil instance pointer, the pointer to the zero
value included, each of the seven parent-scoped derivations returns a string and
does not panic; nameDeploymentTrustedCA takes no instance and returns the string
"trusted-ca". -/
theorem non_nil_instance_returns {σ τ : Type} (c : Cincinnati σ τ) :
    (∃ s, nameDeployment (some c) = .ok s)
    ∧ (∃ s, namePodDisruptionBudget (some c) = .ok s)
    ∧ (∃ s, nameEnvConfig (some c) = .ok s)
    ∧ (∃ s, nameConfig (some c) = .ok s)
    ∧ (∃ s, namePolicyEngineService (some c) = .ok s)
    ∧ (∃ s, nameGraphBuilderService (some c) = .ok s)
    ∧ (∃ s, nameAdditionalTrustedCA (some c) = .ok s)
    ∧ nameDeploymentTrustedCA = goLit "trusted-ca"
    ∧ (∃ s, nameDeployment (some zeroInstance) = .ok s)
    ∧ (∃ s, nameConfig (some zeroInstance) = .ok s) :=
  ⟨⟨_, rfl⟩, ⟨_, rfl⟩, ⟨_, rfl⟩, ⟨_, rfl⟩, ⟨_, rfl⟩, ⟨_, rfl⟩, ⟨_, rfl⟩, rfl,
    ⟨_, rfl⟩, ⟨_, rfl⟩⟩

/-- C10: for every Name, the empty string included, the six names nameDeployment,
nameEnvConfig, nameConfig, namePolicyEngineService, nameGraphBuilderService and
nameAdditionalTrustedCA derived from one instance are pairwise distinct. -/
theorem six_names_pairwise_distinct {σ τ : Type} (c : Cincinnati σ τ) :
    List.Pairwise (· ≠ ·)
      [nameDeployment (some c), nameEnvConfig (some c), nameConfig (some c),
       namePolicyEngineService (some c), nameGraphBuilderService (some c),
       nameAdditionalTrustedCA (some c)] := by
  simp [nameDeployment_some, nameEnvConfig_some, nameConfig_some,
    namePolicyEngineService_some, nameGraphBuilderService_some, nameAdditionalTrustedCA_some,
    goLit_env, goLit_config, goLit_policy_engine, goLit_graph_builder,
    goLit_trusted_ca_suffix]

/-- C11: the suffixed roles never collide across instances. For every two
instances (with equal or different Names) and every two different roles among
env-config, config, policy-engine-service, graph-builder-service and trusted-ca
config, the name of the first instance under one role differs from the name of
the second instance under the other role. -/
theorem suffixed_roles_never_collide {σ τ : Type} (c₁ c₂ : Cincinnati σ τ) :
    nameEnvConfig (some c₁) ≠ nameConfig (some c₂)
    ∧ nameEnvConfig (some c₁) ≠ namePolicyEngineService (some c₂)
    ∧ nameEnvConfig (some c₁) ≠ nameGraphBuilderService (some c₂)
    ∧ nameEnvConfig (some c₁) ≠ nameAdditionalTrustedCA (some c₂)
    ∧ nameConfig (some c₁) ≠ nameEnvConfig (some c₂)
    ∧ nameConfig (some c₁) ≠ namePolicyEngineService (some c₂)
    ∧ nameConfig (some c₁) ≠ nameGraphBuilderService (some c₂)
    ∧ nameConfig (some c₁) ≠ nameAdditionalTrustedCA (some c₂)
    ∧ namePolicyEngineService (some c₁) ≠ nameEnvConfig (some c₂)
    ∧ namePolicyEngineService (some c₁) ≠ nameConfig (some c₂)
    ∧ namePolicyEngineService (some c₁) ≠ nameGraphBuilderService (some c₂)
    ∧ namePolicyEngineService (some c₁) ≠ nameAdditionalTrustedCA (some c₂)
    ∧ nameGraphBuilderService (some c₁) ≠ nameEnvConfig (some c₂)
    ∧ nameGraphBuilderService (some c₁) ≠ nameConfig (some c₂)
    ∧ nameGraphBuilderService (some c₁) ≠ namePolicyEngineService (some c₂)
    ∧ nameGraphBuilderService (some c₁) ≠ nameAdditionalTrustedCA (some c₂)
    ∧ nameAdditionalTrustedCA (some c₁) ≠ nameEnvConfig (some c₂)
    ∧ nameAdditionalTrustedCA (some c₁) ≠ nameConfig (some c₂)
    ∧ nameAdditionalTrustedCA (some c₁) ≠ namePolicyEngineService (some c₂)
    ∧ nameAdditionalTrustedCA (some c₁) ≠ nameGraphBuilderService (some c₂) := by
  simp only [nameEnvConfig_some, nameConfig_some, namePolicyEngineService_some,
    nameGraphBuilderService_some, nameAdditionalTrustedCA_some]
  refine ⟨?_, ?_, ?_, ?_, ?_, ?_, ?_, ?_, ?_, ?_, ?_, ?_, ?_, ?_, ?_, ?_, ?_, ?_, ?_, ?_⟩ <;>
    exact ok_append_ne_of_getLast _ _ _ _ (by decide) (by decide) (by decide)

/-- C12: the constant nameDeploymentTrustedCA equals the deployment name, and the
pod-disruption-budget name, exactly when `instance.Name` is "trusted-ca"; and for
no Name does any of the five suffixed derivations return "trusted-ca". -/
theorem trusted_ca_collides_iff {σ τ : Type} (c : Cincinnati σ τ) :
    (nameDeployment (some c) = .ok nameDeploymentTrustedCA ↔ c.Name = goLit "trusted-ca")
    ∧ (namePodDisruptionBudget (some c) = .ok nameDeploymentTrustedCA
        ↔ c.Name = goLit "trusted-ca")
    ∧ nameEnvConfig (some c) ≠ .ok nameDeploymentTrustedCA
    ∧ nameConfig (some c) ≠ .ok nameDeploymentTrustedCA
    ∧ namePolicyEngineService (some c) ≠ .ok nameDeploymentTrustedCA
    ∧ nameGraphBuilderService (some c) ≠ .ok nameDeploymentTrustedCA
    ∧ nameAdditionalTrustedCA (some c) ≠ .ok nameDeploymentTrustedCA := by
  refine ⟨⟨fun e => Except.ok.inj e, fun e => ?_⟩, ⟨fun e => Except.ok.inj e, fun e => ?_⟩,
    ok_append_ne_trusted_ca _ _ (by decide) (by decide),
    ok_append_ne_trusted_ca _ _ (by decide) (by decide),
    ok_append_ne_trusted_ca _ _ (by decide) (by decide),
    ok_append_ne_trusted_ca _ _ (by decide) (by decide), ?_⟩
  · rw [nameDeployment_some, e]; rfl
  · rw [namePodDisruptionBudget_some, e]; rfl
  · intro e
    have hl := congrArg List.length (Except.ok.inj e)
    simp [nameDeploymentTrustedCA, goLit_trusted_ca, goLit_trusted_ca_suffix] at hl

/-- C12, at the instances named "trusted-ca" and "example": the first one's
deployment name is the constant, the second one's is not. -/
theorem trusted_ca_collides_iff_witness :
    nameDeployment (some trustedCAInstance) = .ok nameDeploymentTrustedCA
    ∧ nameDeployment (some exampleInstance) ≠ .ok nameDeploymentTrustedCA :=
  ⟨(trusted_ca_collides_iff trustedCAInstance).1.mpr rfl,
    fun e => absurd ((trusted_ca_collides_iff exampleInstance).1.mp e) (by decide)⟩

/-- C13: character-set validity is preserved. For every non-empty Name made only
of lowercase ASCII letters, digits and `-` that starts and ends with a letter or
digit, each of the seven parent-scoped derived names is made only of those bytes
and starts and ends with a letter or digit. -/
theorem label_chars_preserved {σ τ : Type} (c : Cincinnati σ τ)
    (_hne : c.Name ≠ []) (h : isLabelName c.Name = true) :
    ∀ r ∈ [nameDeployment (some c), namePodDisruptionBudget (some c), nameEnvConfig (some c),
           nameConfig (some c), namePolicyEngineService (some c),
           nameGraphBuilderService (some c), nameAdditionalTrustedCA (some c)],
      ∃ d, r = .ok d ∧ isLabelName d = true := by
  intro r hr
  simp only [List.mem_cons, List.mem_singleton, List.not_mem_nil, or_false] at hr
  rcases hr with e | e | e | e | e | e | e <;> subst e
  · exact ⟨c.Name, rfl, h⟩
  · exact ⟨c.Name, rfl, h⟩
  · exact ok_isLabelName_append _ _ h (by decide) (by decide)
  · exact ok_isLabelName_append _ _ h (by decide) (by decide)
  · exact ok_isLabelName_append _ _ h (by decide) (by decide)
  · exact ok_isLabelName_append _ _ h (by decide) (by decide)
  · exact ok_isLabelName_append _ _ h (by decide) (by decide)

/-- C13, at the instance named "example": the name obeys the rule and so does its
policy-engine service name "example-policy-engine". -/
theorem label_chars_preserved_witness :
    exampleInstance.Name ≠ [] ∧ isLabelName exampleInstance.Name = true
    ∧ (∃ d, namePolicyEngineService (some exampleInstance) = .ok d ∧ isLabelName d = true)
    ∧ isLabelName (goLit "example-policy-engine") = true :=
  ⟨by decide, by decide,
    label_chars_preserved exampleInstance (by decide) (by decide) _ (by simp), by decide⟩

/-- C14: lengths of the derived names, in bytes. The deployment and
pod-disruption-budget names are as long as Name; the env-config name is 4 longer,
the config name 7, the trusted-ca config name 11, the two service names 14. Hence
every derived name, the constant "trusted-ca" included, is at most len(Name) + 14
long, and at most 63 long when len(Name) is at most 49. -/
theorem derived_name_lengths {σ τ : Type} (c : Cincinnati σ τ) :
    (Except.map List.length (nameDeployment (some c)) = .ok c.Name.length
      ∧ Except.map List.length (namePodDisruptionBudget (some c)) = .ok c.Name.length
      ∧ Except.map List.length (nameEnvConfig (some c)) = .ok (c.Name.length + 4)
      ∧ Except.map List.length (nameConfig (some c)) = .ok (c.Name.length + 7)
      ∧ Except.map List.length (nameAdditionalTrustedCA (some c)) = .ok (c.Name.length + 11)
      ∧ Except.map List.length (namePolicyEngineService (some c)) = .ok (c.Name.length + 14)
      ∧ Except.map List.length (nameGraphBuilderService (some c))
          = .ok (c.Name.length + 14))
    ∧ (∀ r ∈ [nameDeployment (some c), namePodDisruptionBudget (some c),
              nameEnvConfig (some c), nameConfig (some c), namePolicyEngineService (some c),
              nameGraphBuilderService (some c), nameAdditionalTrustedCA (some c),
              .ok nameDeploymentTrustedCA],
          ∃ d, r = .ok d ∧ d.length ≤ c.Name.length + 14)
    ∧ (c.Name.length ≤ 49 →
        ∀ r ∈ [nameDeployment (some c), namePodDisruptionBudget (some c),
               nameEnvConfig (some c), nameConfig (some c), namePolicyEngineService (some c),
               nameGraphBuilderService (some c), nameAdditionalTrustedCA (some c),
               .ok nameDeploymentTrustedCA],
          ∃ d, r = .ok d ∧ d.length ≤ 63) := by
  have hb : ∀ r ∈ [nameDeployment (some c), namePodDisruptionBudget (some c),
              nameEnvConfig (some c), nameConfig (some c), namePolicyEngineService (some c),
              nameGraphBuilderService (some c), nameAdditionalTrustedCA (some c),
              .ok nameDeploymentTrustedCA],
          ∃ d, r = .ok d ∧ d.length ≤ c.Name.length + 14 := by
    intro r hr
    simp only [List.mem_cons, List.mem_singleton, List.not_mem_nil, or_false] at hr
    rcases hr with e | e | e | e | e | e | e | e <;> subst e
    · exact ⟨c.Name, rfl, by omega⟩
    · exact ⟨c.Name, rfl, by omega⟩
    · exact ⟨_, rfl, by simp [goLit_env]⟩
    · exact ⟨_, rfl, by simp [goLit_config]⟩
    · exact ⟨_, rfl, by simp [goLit_policy_engine]⟩
    · exact ⟨_, rfl, by simp [goLit_graph_builder]⟩
    · exact ⟨_, rfl, by simp [goLit_trusted_ca_suffix]⟩
    · exact ⟨_, rfl, by simp [nameDeploymentTrustedCA, goLit_trusted_ca]⟩
  refine ⟨⟨rfl, rfl, ok_length_append _ _ 4 (by decide), ok_length_append _ _ 7 (by decide),
    ok_length_append _ _ 11 (by decide), ok_length_append _ _ 14 (by decide),
    ok_length_append _ _ 14 (by decide)⟩, hb, ?_⟩
  intro h49 r hr
  obtain ⟨d, hd, hl⟩ := hb r hr
  exact ⟨d, hd, by omega⟩

/-- C14, at the instance whose name is 49 bytes long: its policy-engine service
name is exactly 63 bytes long and every derived name is at most 63 long. -/
theorem derived_name_lengths_witness :
    longInstance.Name.length ≤ 49
    ∧ Except.map List.length (namePolicyEngineService (some longInstance)) = .ok 63
    ∧ (∃ d, nameGraphBuilderService (some longInstance) = .ok d ∧ d.length ≤ 63) :=
  have h := derived_name_lengths longInstance
  ⟨by decide, by decide, h.2.2 (by decide) _ (by simp)⟩

end Names
